import Mathlib

/-
  Verification development for the StreamDAB / Thai-analysis module of etisnoop.

  The repository ships only the two headers `streamdab_integration.hpp` and
  `thai_analysis.hpp` (declarations of the ETSI standards analyzer, the Thai
  compliance engine and their data model); the corresponding .cpp
  implementation files are absent.  Every operation below is therefore
  modelled from the specification's description of the declared entity,
  with scores represented as exact rationals (the C++ uses double) and
  byte strings as `List Nat`.
-/

/-- Modelled from the source header `thai_analysis.hpp`: Thai DAB+ compliance
levels (COMPLIANT 95-100, WARNING 85-94, NON_COMPLIANT 70-84, CRITICAL below 70). -/
inductive ComplianceLevel where
  | COMPLIANT
  | WARNING
  | NON_COMPLIANT
  | CRITICAL
deriving Repr, DecidableEq

/-- Numeric rank of a compliance level, following the C++ enumerator values
(COMPLIANT = 0 .. CRITICAL = 3). -/
def levelRank : ComplianceLevel → Nat
  | .COMPLIANT => 0
  | .WARNING => 1
  | .NON_COMPLIANT => 2
  | .CRITICAL => 3

/-- Modelled from the source header `streamdab_integration.hpp`: compliance
violation severity levels (INFO = 0 .. CRITICAL = 3). -/
inductive ViolationSeverity where
  | INFO
  | WARNING
  | ERROR
  | CRITICAL
deriving Repr, DecidableEq

/-- Modelled from the source header `streamdab_integration.hpp`: the nine
tracked ETSI standards. -/
inductive ETSIStandard where
  | EN_302_077
  | EN_300_401
  | TS_102_563
  | TS_101_756
  | TR_101_496_3
  | TS_101_499
  | TS_102_818
  | TS_103_551
  | TS_103_176
deriving Repr, DecidableEq

/-- Modelled from the source header `thai_analysis.hpp`: Thai character
encoding validation result.  Scores use exact rationals in place of double. -/
structure CharacterValidation where
  valid_encoding : Bool
  dab_profile_compliant : Bool
  renderable : Bool
  invalid_chars : Nat
  issues : List String
  compliance_score : Rat
deriving Repr, DecidableEq

/-- Modelled from the source header `thai_analysis.hpp`: Buddhist/cultural
content analysis result. -/
structure CulturalAnalysis where
  has_buddhist_content : Bool
  has_royal_content : Bool
  has_traditional_content : Bool
  appropriate_language : Bool
  cultural_category : String
  detected_keywords : List (List Nat)
  cultural_compliance : Rat
deriving Repr, DecidableEq

/-- Modelled from the source header `thai_analysis.hpp`: Thai metadata
structure with per-field validations, one holistic cultural analysis, and the
overall compliance score.  Text is kept as UTF-8 byte lists; the timestamp is
an abstract tick. -/
structure ThaiMetadata where
  title_thai : List Nat
  title_dab : List Nat
  artist_thai : List Nat
  artist_dab : List Nat
  album_thai : List Nat
  album_dab : List Nat
  genre_thai : List Nat
  station_name_thai : List Nat
  title_validation : CharacterValidation
  artist_validation : CharacterValidation
  album_validation : CharacterValidation
  genre_validation : CharacterValidation
  cultural_analysis : CulturalAnalysis
  has_english_fallback : Bool
  overall_compliance : Rat
  timestamp : Nat
deriving Repr, DecidableEq

/-- Modelled from the source header `thai_analysis.hpp`: result of analyzing
one Dynamic Label Segment string. -/
structure DLSThaiAnalysis where
  original_text : List Nat
  thai_portion : List Nat
  english_portion : List Nat
  bilingual : Bool
  validation : CharacterValidation
  cultural : CulturalAnalysis
  segment_length : Nat
  exceeds_limit : Bool
  segments : List (List Nat)
deriving Repr, DecidableEq

/-- Modelled from the source header `streamdab_integration.hpp`: one
compliance check result (the C++ `std::map` metadata field is kept as an
association list, the timestamp as an abstract tick). -/
structure ComplianceResult where
  standard : ETSIStandard
  check_name : String
  description : String
  severity : ViolationSeverity
  passed : Bool
  score : Rat
  details : String
  recommendation : String
  timestamp : Nat
  metadata : List (String × String)
deriving Repr, DecidableEq

/-- Modelled from the spec: `ThaiAnalysisEngine::score_to_level` is declared in
`thai_analysis.hpp` but its .cpp body is missing from src; section 4.4 of the
spec fixes the thresholds COMPLIANT at 95 and above, WARNING on [85,95),
NON_COMPLIANT on [70,85), CRITICAL below 70. -/
def score_to_level (s : Rat) : ComplianceLevel :=
  if 95 ≤ s then .COMPLIANT
  else if 85 ≤ s then .WARNING
  else if 70 ≤ s then .NON_COMPLIANT
  else .CRITICAL

/-- Modelled from the spec: `ThaiAnalysisEngine::get_overall_compliance_level`
is declared in `thai_analysis.hpp` but its .cpp body is missing from src; the
spec applies the threshold ladder to the metadata's `overall_compliance`. -/
def get_overall_compliance_level (m : ThaiMetadata) : ComplianceLevel :=
  score_to_level m.overall_compliance

/-- Modelled from the spec: `ETSIStandardsAnalyzer::get_severity_for_score` is
declared in `streamdab_integration.hpp` but its .cpp body is missing from src;
section 4.5 of the spec fixes the ladder INFO at 90 and above, WARNING on
[70,90), ERROR on [40,70), CRITICAL below 40. -/
def get_severity_for_score (score : Rat) : ViolationSeverity :=
  if 90 ≤ score then .INFO
  else if 70 ≤ score then .WARNING
  else if 40 ≤ score then .ERROR
  else .CRITICAL

/-- Modelled from the spec: `ETSIStandardsAnalyzer::create_result` is declared
in `streamdab_integration.hpp` but its .cpp body is missing from src; it fills
a `ComplianceResult`, deriving severity from the score alone via the fixed
ladder, independent of the structural pass/fail boolean. -/
def create_result (standard : ETSIStandard) (check_name : String)
    (passed : Bool) (score : Rat) (details : String) : ComplianceResult :=
  { standard := standard
    check_name := check_name
    description := check_name
    severity := get_severity_for_score score
    passed := passed
    score := score
    details := details
    recommendation := if passed then "" else "Review " ++ check_name
    timestamp := 0
    metadata := [] }

lemma score_to_level_compliant (s : Rat) :
    score_to_level s = .COMPLIANT ↔ 95 ≤ s := by
  unfold score_to_level
  split_ifs with h1 h2 h3 <;> simp_all

lemma score_to_level_warning (s : Rat) :
    score_to_level s = .WARNING ↔ 85 ≤ s ∧ s < 95 := by
  unfold score_to_level
  split_ifs with h1 h2 h3 <;> simp_all <;> intros <;> linarith

lemma score_to_level_noncompliant (s : Rat) :
    score_to_level s = .NON_COMPLIANT ↔ 70 ≤ s ∧ s < 85 := by
  unfold score_to_level
  split_ifs with h1 h2 h3 <;> simp_all <;> intros <;> linarith

lemma score_to_level_critical (s : Rat) :
    score_to_level s = .CRITICAL ↔ s < 70 := by
  unfold score_to_level
  split_ifs with h1 h2 h3 <;> simp_all <;> intros <;> linarith

lemma score_to_level_antitone {s t : Rat} (h : s ≤ t) :
    levelRank (score_to_level t) ≤ levelRank (score_to_level s) := by
  unfold score_to_level
  split_ifs <;> simp_all [levelRank] <;> linarith

/-- Check for a UTF-8 continuation byte (0x80-0xBF). -/
def isCont (b : Nat) : Bool := 0x80 ≤ b && b < 0xC0

/-- Modelled from the spec: `ThaiCharacterAnalyzer::utf8_to_codepoint` is
declared in `thai_analysis.hpp` but its .cpp body is missing from src.  One
decoding step: given the lead byte and the remaining bytes, produce the
decoded codepoint (`none` for a malformed sequence, which consumes only the
lead byte) and the bytes left over. -/
def decodeOne (b : Nat) (rest : List Nat) : Option Nat × List Nat :=
  if b < 0x80 then (some b, rest)
  else if b < 0xC0 then (none, rest)
  else if b < 0xE0 then
    match rest with
    | b1 :: r =>
      if isCont b1 then (some ((b - 0xC0) * 64 + (b1 - 0x80)), r) else (none, rest)
    | [] => (none, rest)
  else if b < 0xF0 then
    match rest with
    | b1 :: b2 :: r =>
      if isCont b1 && isCont b2 then
        (some ((b - 0xE0) * 4096 + (b1 - 0x80) * 64 + (b2 - 0x80)), r)
      else (none, rest)
    | _ => (none, rest)
  else if b < 0xF8 then
    match rest with
    | b1 :: b2 :: b3 :: r =>
      if isCont b1 && isCont b2 && isCont b3 then
        (some ((b - 0xF0) * 262144 + (b1 - 0x80) * 4096 + (b2 - 0x80) * 64 + (b3 - 0x80)), r)
      else (none, rest)
    | _ => (none, rest)
  else (none, rest)

lemma decodeOne_snd_le (b : Nat) (rest : List Nat) :
    (decodeOne b rest).2.length ≤ rest.length := by
  rcases rest with _ | ⟨b1, _ | ⟨b2, _ | ⟨b3, r3⟩⟩⟩ <;>
    simp only [decodeOne] <;> split_ifs <;> simp <;> omega

/-- Fuel-indexed UTF-8 decoder; the fuel bounds the number of decoded items
and is instantiated with the byte count, which always suffices since every
step consumes at least the lead byte. -/
def utf8DecodeAux : Nat → List Nat → List (Option Nat)
  | _, [] => []
  | 0, _ :: _ => []
  | fuel + 1, b :: rest =>
      (decodeOne b rest).1 :: utf8DecodeAux fuel (decodeOne b rest).2

/-- Modelled from the spec: the UTF-8 decoding loop inside
`ThaiCharacterAnalyzer::validate_thai_text` (its .cpp body is missing from
src).  Decodes a byte string into a sequence of items, one per decoded
codepoint, `none` marking a malformed sequence. -/
def utf8Decode (l : List Nat) : List (Option Nat) := utf8DecodeAux l.length l

lemma utf8DecodeAux_fuel :
    ∀ fuel l, List.length l ≤ fuel → utf8DecodeAux fuel l = utf8Decode l := by
  intro fuel
  induction fuel using Nat.strong_induction_on with
  | _ fuel ih =>
    intro l hl
    cases l with
    | nil => cases fuel <;> rfl
    | cons b rest =>
      cases fuel with
      | zero => simp at hl
      | succ f =>
        have hrest : rest.length ≤ f := by simp at hl; omega
        have hsnd := decodeOne_snd_le b rest
        show (decodeOne b rest).1 :: utf8DecodeAux f (decodeOne b rest).2 = utf8Decode (b :: rest)
        have h1 : utf8DecodeAux f (decodeOne b rest).2 = utf8Decode (decodeOne b rest).2 :=
          ih f (by omega) _ (by omega)
        have h2 : utf8DecodeAux rest.length (decodeOne b rest).2 = utf8Decode (decodeOne b rest).2 :=
          ih rest.length (by omega) _ (by omega)
        have h3 : utf8Decode (b :: rest) =
            (decodeOne b rest).1 :: utf8DecodeAux rest.length (decodeOne b rest).2 := by
          show utf8DecodeAux (b :: rest).length (b :: rest) = _
          simp [List.length, utf8DecodeAux]
        rw [h3, h1, h2]

lemma utf8Decode_cons (b : Nat) (rest : List Nat) :
    utf8Decode (b :: rest) = (decodeOne b rest).1 :: utf8Decode (decodeOne b rest).2 := by
  have h2 : utf8DecodeAux rest.length (decodeOne b rest).2 = utf8Decode (decodeOne b rest).2 :=
    utf8DecodeAux_fuel rest.length _ (decodeOne_snd_le b rest)
  show utf8DecodeAux (b :: rest).length (b :: rest) = _
  simp [List.length, utf8DecodeAux, h2]

/-- UTF-8 encoder for a single codepoint (standard 1- to 4-byte forms). -/
def utf8EncodeChar (c : Nat) : List Nat :=
  if c < 0x80 then [c]
  else if c < 0x800 then [0xC0 + c / 64, 0x80 + c % 64]
  else if c < 0x10000 then [0xE0 + c / 4096, 0x80 + c / 64 % 64, 0x80 + c % 64]
  else [0xF0 + c / 262144, 0x80 + c / 4096 % 64, 0x80 + c / 64 % 64, 0x80 + c % 64]

/-- UTF-8 encoder for a codepoint sequence. -/
def utf8Encode (cps : List Nat) : List Nat := (cps.map utf8EncodeChar).join

/-- Modelled from the spec: `ThaiCharacterAnalyzer::is_valid_thai_character`
is declared in `thai_analysis.hpp` but its .cpp body is missing from src; the
valid-Thai-codepoint set used for profile mapping is modelled as the full
ASCII range (below 0x80, so that every fully-ASCII string is trivially
compliant, as section 4.1 requires) together with the assigned Thai block
U+0E01-U+0E5B. -/
def is_valid_thai_character (c : Nat) : Bool :=
  (c < 0x80) || (0x0E01 ≤ c && c ≤ 0x0E5B)

/-- Modelled from the spec: `ThaiCharacterAnalyzer::is_renderable_on_dab` is
declared in `thai_analysis.hpp` but its .cpp body is missing from src; the
renderable set is modelled as coinciding with the profile-mapping domain. -/
def is_renderable_on_dab (c : Nat) : Bool := is_valid_thai_character c

/-- Modelled from the spec: the member table
`ThaiCharacterAnalyzer::utf8_to_dab_mapping_` is initialized by the missing
.cpp file; modelled as the ETSI TS 101 756 profile 0x0E single-byte codes:
every ASCII codepoint (below 0x80) maps to itself, covering a fully-ASCII
string as section 4.1's fail-closed sentence requires, and the Thai block
U+0E01-U+0E5B maps to the bytes 0x81-0xDB. -/
def utf8_to_dab_mapping (c : Nat) : Option Nat :=
  if c < 0x80 then some c
  else if 0x0E01 ≤ c && c ≤ 0x0E5B then some (c - 0x0E00 + 0x80)
  else none

/-- Modelled from the spec: the profile-to-Unicode reverse mapping named by
the round-trip property of section 8 (no .cpp implementation present in src). -/
def dab_to_unicode (b : Nat) : Option Nat :=
  if b < 0x80 then some b
  else if 0x81 ≤ b && b ≤ 0xDB then some (b + 0x0E00 - 0x80)
  else none

/-- The number of decoded codepoints that map into the DAB profile. -/
def mappedCount (text : List Nat) : Nat :=
  ((utf8Decode text).filter (fun it => (it.bind utf8_to_dab_mapping).isSome)).length

/-- Modelled from the spec: `ThaiCharacterAnalyzer::calculate_compliance_score`
is declared in `thai_analysis.hpp` but its .cpp body is missing from src;
section 4.1 fixes the formula 100 times the mapped-codepoint count over the
total codepoint count, with the empty text scoring 100. -/
def calculate_compliance_score (text : List Nat) : Rat :=
  if (utf8Decode text).length = 0 then 100
  else 100 * (mappedCount text : Rat) / ((utf8Decode text).length : Rat)

/-- The issue string recorded for one decoded item, if any. -/
def itemIssue (it : Option Nat) : Option String :=
  match it with
  | none => some "Malformed UTF-8 sequence"
  | some c =>
    match utf8_to_dab_mapping c with
    | none => some "Codepoint outside DAB profile 0x0E"
    | some _ => none

/-- Modelled from the spec: `ThaiCharacterAnalyzer::validate_thai_text` is
declared in `thai_analysis.hpp` but its .cpp body is missing from src; per
section 4.1 it decodes the text, counts malformed sequences and out-of-profile
codepoints as failures, and scores via `calculate_compliance_score`. -/
def validate_thai_text (text : List Nat) : CharacterValidation :=
  let items := utf8Decode text
  { valid_encoding := (items.filter (fun it => it.isNone)).length = 0
    dab_profile_compliant :=
      (items.filter (fun it => (it.bind utf8_to_dab_mapping).isNone)).length = 0
    renderable :=
      (items.filter (fun it =>
        (it.bind (fun c => if is_renderable_on_dab c then some c else none)).isNone)).length = 0
    invalid_chars := (items.filter (fun it => (it.bind utf8_to_dab_mapping).isNone)).length
    issues := items.filterMap itemIssue
    compliance_score := calculate_compliance_score text }

lemma valid_cases {c : Nat} (h : is_valid_thai_character c = true) :
    c < 0x80 ∨ (0x0E01 ≤ c ∧ c ≤ 0x0E5B) := by
  simp [is_valid_thai_character] at h
  omega

lemma decodeOne_ascii {b : Nat} (hb : b < 0x80) (rest : List Nat) :
    decodeOne b rest = (some b, rest) := by
  simp [decodeOne, hb]

lemma utf8Decode_ascii : ∀ text : List Nat, (∀ b ∈ text, b < 0x80) →
    utf8Decode text = text.map some := by
  intro text
  induction text with
  | nil => intro _; rfl
  | cons b rest ih =>
    intro h
    have hb : b < 0x80 := h b (by simp)
    rw [utf8Decode_cons, decodeOne_ascii hb]
    simp only [List.map_cons, List.cons.injEq, true_and]
    exact ih (fun x hx => h x (by simp [hx]))

lemma utf8EncodeChar_thai {c : Nat} (h1 : 0x0E01 ≤ c) (h2 : c ≤ 0x0E5B) :
    utf8EncodeChar c = [0xE0, 0x80 + c / 64 % 64, 0x80 + c % 64] := by
  have hc1 : ¬ c < 0x80 := by omega
  have hc2 : ¬ c < 0x800 := by omega
  have hc3 : c < 0x10000 := by omega
  have hc4 : c / 4096 = 0 := by omega
  simp [utf8EncodeChar, hc1, hc2, hc3, hc4]

lemma decodeOne_thai {c : Nat} (h1 : 0x0E01 ≤ c) (h2 : c ≤ 0x0E5B) (rest : List Nat) :
    decodeOne 0xE0 ((0x80 + c / 64 % 64) :: (0x80 + c % 64) :: rest) = (some c, rest) := by
  have hcont1 : isCont (0x80 + c / 64 % 64) = true := by
    simp [isCont]
    omega
  have hcont2 : isCont (0x80 + c % 64) = true := by
    simp [isCont]
    omega
  simp [decodeOne, hcont1, hcont2]
  omega

lemma utf8Decode_encode : ∀ cps : List Nat,
    (∀ c ∈ cps, is_valid_thai_character c = true) →
    utf8Decode (utf8Encode cps) = cps.map some := by
  intro cps
  induction cps with
  | nil => intro _; rfl
  | cons c rest ih =>
    intro h
    have hc : is_valid_thai_character c = true := h c (by simp)
    have hrest := ih (fun x hx => h x (by simp [hx]))
    have hjoin : utf8Encode (c :: rest) = utf8EncodeChar c ++ utf8Encode rest := by
      simp [utf8Encode]
    rw [hjoin]
    rcases valid_cases hc with ha | ⟨ht1, ht2⟩
    · have henc : utf8EncodeChar c = [c] := by
        simp [utf8EncodeChar, ha]
      rw [henc]
      show utf8Decode (c :: utf8Encode rest) = some c :: rest.map some
      rw [utf8Decode_cons, decodeOne_ascii ha]
      simp only [List.cons.injEq, true_and]
      exact hrest
    · rw [utf8EncodeChar_thai ht1 ht2]
      show utf8Decode (0xE0 :: (0x80 + c / 64 % 64) :: (0x80 + c % 64) :: utf8Encode rest)
          = some c :: rest.map some
      rw [utf8Decode_cons, decodeOne_thai ht1 ht2]
      simp only [List.cons.injEq, true_and]
      exact hrest

lemma mapping_roundtrip {c : Nat} (h : is_valid_thai_character c = true) :
    (utf8_to_dab_mapping c).bind dab_to_unicode = some c := by
  rcases valid_cases h with ha | ⟨ht1, ht2⟩
  · have hm : utf8_to_dab_mapping c = some c := by
      simp [utf8_to_dab_mapping, ha]
    rw [hm]
    simp [dab_to_unicode, ha]
  · have hm : utf8_to_dab_mapping c = some (c - 0x0E00 + 0x80) := by
      have hno : ¬ c < 0x80 := by omega
      simp [utf8_to_dab_mapping, hno, ht1, ht2]
    rw [hm]
    have hb1 : ¬ (c - 0x0E00 + 0x80) < 0x80 := by omega
    have hb2 : 0x81 ≤ c - 0x0E00 + 0x80 := by omega
    have hb3 : c - 0x0E00 + 0x80 ≤ 0xDB := by omega
    simp [dab_to_unicode, hb1, hb2, hb3]
    omega

lemma mapping_isSome_of_valid {c : Nat} (h : is_valid_thai_character c = true) :
    (utf8_to_dab_mapping c).isSome = true := by
  unfold utf8_to_dab_mapping
  rcases valid_cases h with ha | ⟨ht1, ht2⟩ <;> split_ifs <;> simp_all

/-- The substitution marker used for out-of-profile codepoints. -/
def substitutionMarker : Nat := 0x3F

/-- Modelled from the spec: `ThaiCharacterAnalyzer::convert_to_dab_profile` is
declared in `thai_analysis.hpp` but its .cpp body is missing from src; per
section 4.1 each mappable codepoint becomes its single-byte profile code,
every other decoded item becomes the substitution marker together with a
recorded lossy-conversion issue (the C++ surfaces the issues through
`get_compliance_issues`; the model returns them alongside the bytes). -/
def convert_to_dab_profile (text : List Nat) : List Nat × List String :=
  ((utf8Decode text).map (fun it =>
      match it.bind utf8_to_dab_mapping with
      | some b => b
      | none => substitutionMarker),
   (utf8Decode text).filterMap (fun it =>
      match it.bind utf8_to_dab_mapping with
      | some _ => none
      | none => some "Lossy conversion: codepoint outside DAB profile 0x0E"))

/-- Modelled from the spec: the construction-time member tables of
`ThaiCharacterAnalyzer` (`utf8_to_dab_mapping_`, `valid_thai_codepoints_`,
`renderable_codepoints_`), whose initializing .cpp file is missing from src.
They are loaded once at construction and never written afterwards. -/
structure ThaiCharacterAnalyzer where
  utf8_to_dab_table : Nat → Option Nat
  valid_thai_table : Nat → Bool
  renderable_table : Nat → Bool

/-- The analyzer as built by the (missing) constructor
`ThaiCharacterAnalyzer::ThaiCharacterAnalyzer`, holding the profile 0x0E
tables. -/
def defaultThaiCharacterAnalyzer : ThaiCharacterAnalyzer :=
  { utf8_to_dab_table := utf8_to_dab_mapping
    valid_thai_table := is_valid_thai_character
    renderable_table := is_renderable_on_dab }

/-- Modelled from the spec: `validate_thai_text` is a const member of
`ThaiCharacterAnalyzer` whose .cpp body is missing from src.  State-passing
form of the call: the result is computed from the text and the
construction-fixed tables and the analyzer state is returned unchanged (the
method is const and the class has no mutable accumulator members). -/
def validate_thai_text_call (a : ThaiCharacterAnalyzer) (text : List Nat) :
    CharacterValidation × ThaiCharacterAnalyzer :=
  (validate_thai_text text, a)

/-- Modelled from the spec: the keyword member tables of
`CulturalContentAnalyzer` (`thai_analysis.hpp`), initialized once by the
missing `initialize_keyword_databases`; they are configuration data, so the
analyzer is modelled as a record of keyword sets over UTF-8 byte strings. -/
structure CulturalContentAnalyzer where
  buddhist_keywords : List (List Nat)
  royal_keywords : List (List Nat)
  traditional_keywords : List (List Nat)
  inappropriate_terms : List (List Nat)
  formal_indicators : List (List Nat)
deriving Repr, DecidableEq

/-- Byte-substring occurrence test, as `std::string::find` does. -/
def keywordOccurs (text pat : List Nat) : Bool :=
  (List.range (text.length + 1)).any (fun i => (text.drop i).take pat.length == pat)

/-- Modelled from the spec: `CulturalContentAnalyzer::contains_keywords`
(missing .cpp body): some keyword of the set occurs in the text. -/
def contains_keywords (text : List Nat) (kws : List (List Nat)) : Bool :=
  kws.any (fun k => keywordOccurs text k)

/-- Modelled from the spec: `CulturalContentAnalyzer::detect_buddhist_content`
(missing .cpp body). -/
def detect_buddhist_content (a : CulturalContentAnalyzer) (text : List Nat) : Bool :=
  contains_keywords text a.buddhist_keywords

/-- Modelled from the spec: `CulturalContentAnalyzer::detect_royal_content`
(missing .cpp body). -/
def detect_royal_content (a : CulturalContentAnalyzer) (text : List Nat) : Bool :=
  contains_keywords text a.royal_keywords

/-- Modelled from the spec: `CulturalContentAnalyzer::detect_traditional_content`
(missing .cpp body). -/
def detect_traditional_content (a : CulturalContentAnalyzer) (text : List Nat) : Bool :=
  contains_keywords text a.traditional_keywords

/-- Modelled from the spec: `CulturalContentAnalyzer::detect_inappropriate_content`
(missing .cpp body): the inappropriate terms occurring in the text. -/
def detect_inappropriate_content (a : CulturalContentAnalyzer) (text : List Nat) :
    List (List Nat) :=
  a.inappropriate_terms.filter (fun k => keywordOccurs text k)

/-- Modelled from the spec: `CulturalContentAnalyzer::check_formal_language_usage`
(missing .cpp body). -/
def check_formal_language_usage (a : CulturalContentAnalyzer) (text : List Nat) : Bool :=
  contains_keywords text a.formal_indicators

/-- Modelled from the spec: `CulturalContentAnalyzer::classify_content_type`
(missing .cpp body); section 4.2 fixes the precedence royal over Buddhist over
traditional over general, with any inappropriate hit forcing the category
flagged regardless of other matches. -/
def classify_content_type (a : CulturalContentAnalyzer) (text : List Nat) : String :=
  if (detect_inappropriate_content a text).isEmpty then
    if detect_royal_content a text then "royal"
    else if detect_buddhist_content a text then "buddhist"
    else if detect_traditional_content a text then "traditional"
    else "general"
  else "flagged"

/-- Modelled from the spec: `CulturalContentAnalyzer::calculate_cultural_compliance`
(missing .cpp body); section 4.2: 100 minus a per-hit penalty floored at 0,
with a bonus capped at 100 for formal indicators when royal or Buddhist
content is present.  The penalty (20) and bonus (10) magnitudes are model
choices the spec leaves open. -/
def calculate_cultural_compliance (a : CulturalContentAnalyzer) (text : List Nat) : Rat :=
  let hits := (detect_inappropriate_content a text).length
  let base : Rat := max 0 (100 - 20 * (hits : Rat))
  if (detect_royal_content a text || detect_buddhist_content a text)
      && check_formal_language_usage a text then
    min 100 (base + 10)
  else base

/-- Modelled from the spec: `CulturalContentAnalyzer::analyze_cultural_content`
(missing .cpp body); assembles the cultural analysis record from the keyword
detectors. -/
def analyze_cultural_content (a : CulturalContentAnalyzer) (text : List Nat) :
    CulturalAnalysis :=
  { has_buddhist_content := detect_buddhist_content a text
    has_royal_content := detect_royal_content a text
    has_traditional_content := detect_traditional_content a text
    appropriate_language := (detect_inappropriate_content a text).isEmpty
    cultural_category := classify_content_type a text
    detected_keywords :=
      (a.royal_keywords ++ a.buddhist_keywords ++ a.traditional_keywords).filter
        (fun k => keywordOccurs text k)
    cultural_compliance := calculate_cultural_compliance a text }

/-- Modelled from the spec: the `fig1_label` input of
`ThaiAnalysisEngine::analyze_fig1_labels`; `figs.hpp` is not shipped in src,
and section 4.4 describes the input as the four text label fields. -/
structure fig1_label where
  title : List Nat
  artist : List Nat
  album : List Nat
  genre : List Nat
deriving Repr, DecidableEq

/-- Modelled from the spec: `ThaiAnalysisEngine::analyze_fig1_labels` (missing
.cpp body); section 4.4: validate and convert each of the four fields, run the
cultural analysis once on the concatenation of all fields, and combine the
per-field scores with weights 0.4/0.2/0.2/0.2 multiplied by
cultural_compliance over 100. -/
def analyze_fig1_labels (a : CulturalContentAnalyzer) (label : fig1_label) : ThaiMetadata :=
  { title_thai := label.title
    title_dab := (convert_to_dab_profile label.title).1
    artist_thai := label.artist
    artist_dab := (convert_to_dab_profile label.artist).1
    album_thai := label.album
    album_dab := (convert_to_dab_profile label.album).1
    genre_thai := label.genre
    station_name_thai := []
    title_validation := validate_thai_text label.title
    artist_validation := validate_thai_text label.artist
    album_validation := validate_thai_text label.album
    genre_validation := validate_thai_text label.genre
    cultural_analysis :=
      analyze_cultural_content a (label.title ++ label.artist ++ label.album ++ label.genre)
    has_english_fallback :=
      (label.title ++ label.artist ++ label.album ++ label.genre).any
        (fun b => 0x41 ≤ b && b ≤ 0x7A)
    overall_compliance :=
      (0.4 * (validate_thai_text label.title).compliance_score
        + 0.2 * (validate_thai_text label.artist).compliance_score
        + 0.2 * (validate_thai_text label.album).compliance_score
        + 0.2 * (validate_thai_text label.genre).compliance_score)
      * ((analyze_cultural_content a
            (label.title ++ label.artist ++ label.album ++ label.genre)).cultural_compliance
          / 100)
    timestamp := 0 }

/-- Whitespace test used by the DLS splitter. -/
def isWs (c : Nat) : Bool := c == 0x20 || c == 0x09 || c == 0x0A || c == 0x0D

/-- Index of the last whitespace byte of the list, if any. -/
def lastWsIdx : List Nat → Option Nat
  | [] => none
  | c :: rest =>
    match lastWsIdx rest with
    | some j => some (j + 1)
    | none => if isWs c then some 0 else none

lemma lastWsIdx_lt : ∀ l p, lastWsIdx l = some p → p < l.length := by
  intro l
  induction l with
  | nil => intro p h; simp [lastWsIdx] at h
  | cons c rest ih =>
    intro p h
    unfold lastWsIdx at h
    cases hrest : lastWsIdx rest with
    | some j =>
      rw [hrest] at h
      have := ih j hrest
      simp at h
      simp [List.length]
      omega
    | none =>
      rw [hrest] at h
      split_ifs at h <;> simp_all [List.length] <;> omega

/-- Fuel-indexed greedy DLS splitter; the fuel is instantiated with the byte
count, which always suffices since each emitted segment consumes at least one
byte. -/
def splitDlsAux : Nat → List Nat → List (List Nat)
  | 0, l => [l]
  | fuel + 1, l =>
    if l.length ≤ 128 then [l]
    else
      match lastWsIdx (l.take 128) with
      | some p => l.take p :: splitDlsAux fuel (l.drop (p + 1))
      | none => l.take 128 :: splitDlsAux fuel (l.drop 128)

/-- Modelled from the spec: the DLS splitting step of
`ThaiAnalysisEngine::analyze_dls_content` (missing .cpp body); section 4.4:
greedily split into segments of at most 128 characters, breaking at the last
whitespace boundary inside the window where one exists, hard-splitting
otherwise. -/
def split_dls_segments (l : List Nat) : List (List Nat) := splitDlsAux l.length l

/-- Modelled from the spec: `ThaiCharacterAnalyzer::separate_thai_english`
(missing .cpp body); partitions the decoded codepoints by script, preserving
order within each partition. -/
def separate_thai_english (text : List Nat) : List Nat × List Nat :=
  (utf8Encode (((utf8Decode text).filterMap id).filter (fun c => 0x0E01 ≤ c && c ≤ 0x0E5B)),
   utf8Encode (((utf8Decode text).filterMap id).filter (fun c => c < 0x80)))

/-- Modelled from the spec: `ThaiAnalysisEngine::analyze_dls_content` (missing
.cpp body); section 4.4: split bilingual content, validate and culturally
analyze the text, flag `exceeds_limit` when the segment length is over the
128-character DLS limit and split greedily in that case. -/
def analyze_dls_content (a : CulturalContentAnalyzer) (dls_text : List Nat) :
    DLSThaiAnalysis :=
  { original_text := dls_text
    thai_portion := (separate_thai_english dls_text).1
    english_portion := (separate_thai_english dls_text).2
    bilingual :=
      !(separate_thai_english dls_text).1.isEmpty
        && !(separate_thai_english dls_text).2.isEmpty
    validation := validate_thai_text dls_text
    cultural := analyze_cultural_content a dls_text
    segment_length := dls_text.length
    exceeds_limit := 128 < dls_text.length
    segments :=
      if 128 < dls_text.length then split_dls_segments dls_text else [dls_text] }

/-- Modelled from the spec: the statistics members of `ThaiAnalysisEngine`
(`total_analyzed_`, `total_compliance_score_`, `issue_frequency_`), mutated by
the missing .cpp bodies; modelled as an explicit state record (the histogram
as an association list). -/
structure EngineStats where
  total_analyzed : Nat
  total_compliance_score : Rat
  issue_frequency : List (String × Nat)
deriving Repr, DecidableEq

/-- The statistics state right after engine initialization. -/
def initialEngineStats : EngineStats :=
  { total_analyzed := 0, total_compliance_score := 0, issue_frequency := [] }

/-- Increment the histogram count of one issue string. -/
def bumpIssue : List (String × Nat) → String → List (String × Nat)
  | [], k => [(k, 1)]
  | (k0, n) :: rest, k =>
    if k0 = k then (k0, n + 1) :: rest else (k0, n) :: bumpIssue rest k

/-- The issue strings observed in one analyzed metadata object. -/
def collect_issues (m : ThaiMetadata) : List String :=
  m.title_validation.issues ++ m.artist_validation.issues
    ++ m.album_validation.issues ++ m.genre_validation.issues

/-- Modelled from the spec: `ThaiAnalysisEngine::update_compliance_statistics`
(missing .cpp body); section 4.4: increments the total-analyzed counter,
accumulates the overall compliance score into the running mean, and bumps the
issue-frequency histogram once per observed issue occurrence. -/
def update_compliance_statistics (st : EngineStats) (m : ThaiMetadata) : EngineStats :=
  { total_analyzed := st.total_analyzed + 1
    total_compliance_score := st.total_compliance_score + m.overall_compliance
    issue_frequency := (collect_issues m).foldl bumpIssue st.issue_frequency }

/-- Modelled from the spec: `ThaiAnalysisEngine::get_total_analyzed_count`
(missing .cpp body). -/
def get_total_analyzed_count (st : EngineStats) : Nat := st.total_analyzed

/-- Modelled from the spec: `ThaiAnalysisEngine::get_running_compliance_average`
(missing .cpp body): the accumulated score over the analyzed count, zero
before any analysis. -/
def get_running_compliance_average (st : EngineStats) : Rat :=
  if st.total_analyzed = 0 then 0
  else st.total_compliance_score / (st.total_analyzed : Rat)

/-- Modelled from the spec: `ThaiAnalysisEngine::get_issue_frequency`
(missing .cpp body). -/
def get_issue_frequency (st : EngineStats) : List (String × Nat) := st.issue_frequency

/-- Total of all histogram counts. -/
def sumIssueCounts (l : List (String × Nat)) : Nat := (l.map (fun kv => kv.2)).sum

/-- Modelled from the spec: `ETSIStandardsAnalyzer::validate_frame_structure`
(missing .cpp body); structural frame check: minimum header length and the
modelled sync byte. -/
def validate_frame_structure (frame : List Nat) : Bool :=
  16 ≤ frame.length && frame.headD 0 == 0xFF

/-- Fuel-indexed walk over the FIG area: each FIG carries a 5-bit length field
in its header byte; the declared length must lie within the buffer. -/
def figStructAux : Nat → List Nat → Bool
  | _, [] => true
  | 0, _ :: _ => false
  | fuel + 1, b :: rest =>
    if rest.length < b % 32 then false
    else figStructAux fuel (rest.drop (b % 32))

/-- Modelled from the spec: `ETSIStandardsAnalyzer::validate_fig_structure`
(missing .cpp body); every FIG header's declared length must fit inside the
remaining buffer. -/
def validate_fig_structure (fig_data : List Nat) : Bool :=
  figStructAux fig_data.length fig_data

/-- Modelled from the spec: `ETSIStandardsAnalyzer::validate_service_organization`
(missing .cpp body); structural presence check for the service organization
section. -/
def validate_service_organization (data : List Nat) : Bool := 12 ≤ data.length

/-- Modelled from the source header `streamdab_integration.hpp`: the overall
ETI analysis report.  The per-standard result map is flattened into one result
list; performance and Thai-embedding fields not needed by the modelled checks
are omitted. -/
structure ETIAnalysisReport where
  eti_filename : String
  analysis_time : Nat
  overall_compliance_score : Rat
  total_frames_analyzed : Nat
  total_violations_found : Nat
  standard_results : List ComplianceResult
  critical_issues : List String
  recommendations : List String
  executive_summary : String
deriving Repr, DecidableEq

/-- Modelled from the spec: `ETSIStandardsAnalyzer::analyze_complete_eti`
(missing .cpp body); section 4.5 and section 7: every enabled structural check
runs to completion and reports a `ComplianceResult` (a malformed section
becomes a failed result, never a fault), the results are merged, the overall
score is the mean of the individual scores, and every CRITICAL result's detail
is collected into `critical_issues`. -/
def analyze_complete_eti (filename : String) (data : List Nat) : ETIAnalysisReport :=
  let frameOk := validate_frame_structure data
  let figOk := validate_fig_structure (data.drop 8)
  let orgOk := validate_service_organization data
  let frameRes := create_result .EN_300_401 "ETI Frame Structure" frameOk
      (if frameOk then 100 else 0)
      (if frameOk then "Frame header and sync byte are consistent"
       else "Frame truncated or sync byte missing")
  let figRes := create_result .EN_300_401 "FIG Structure" figOk
      (if figOk then 100 else 0)
      (if figOk then "All FIG length fields lie within the buffer"
       else "FIG declared length exceeds buffer bounds")
  let orgRes := create_result .TS_103_176 "Service Organization" orgOk
      (if orgOk then 100 else 0)
      (if orgOk then "Service organization section present"
       else "Service organization section missing")
  { eti_filename := filename
    analysis_time := 0
    overall_compliance_score :=
      ([frameRes, figRes, orgRes].map (fun r => r.score)).sum / 3
    total_frames_analyzed := 1
    total_violations_found :=
      ([frameRes, figRes, orgRes].filter (fun r => !r.passed)).length
    standard_results := [frameRes, figRes, orgRes]
    critical_issues :=
      (([frameRes, figRes, orgRes].filter
          (fun r => decide (r.severity = ViolationSeverity.CRITICAL))).map
        (fun r => r.details))
    recommendations :=
      (([frameRes, figRes, orgRes].filter (fun r => !r.passed)).map
        (fun r => r.recommendation))
    executive_summary := "ETI compliance analysis completed" }

lemma splitDlsAux_le : ∀ fuel l, List.length l ≤ fuel →
    ∀ s ∈ splitDlsAux fuel l, s.length ≤ 128 := by
  intro fuel
  induction fuel with
  | zero =>
    intro l hl s hs
    have hnil : l = [] := List.length_eq_zero.mp (by omega)
    subst hnil
    simp [splitDlsAux] at hs
    simp [hs]
  | succ f ih =>
    intro l hl s hs
    unfold splitDlsAux at hs
    split_ifs at hs with hlen
    · simp at hs
      subst hs
      omega
    · cases hws : lastWsIdx (l.take 128) with
      | some p =>
        rw [hws] at hs
        simp at hs
        rcases hs with hs | hs
        · subst hs
          have hp := lastWsIdx_lt _ _ hws
          have htk : (l.take 128).length = 128 := by
            simp [List.length_take]
            omega
          simp [List.length_take]
          omega
        · exact ih _ (by simp [List.length_drop]; omega) s hs
      | none =>
        rw [hws] at hs
        simp at hs
        rcases hs with hs | hs
        · subst hs
          simp [List.length_take]
        · exact ih _ (by simp [List.length_drop]; omega) s hs

lemma bumpIssue_sum : ∀ (l : List (String × Nat)) (k : String),
    sumIssueCounts (bumpIssue l k) = sumIssueCounts l + 1 := by
  intro l k
  induction l with
  | nil => rfl
  | cons kv rest ih =>
    obtain ⟨k0, n⟩ := kv
    unfold bumpIssue
    split_ifs with h <;> simp [sumIssueCounts] at ih ⊢ <;> omega

lemma foldl_bumpIssue_sum : ∀ (ks : List String) (l : List (String × Nat)),
    sumIssueCounts (ks.foldl bumpIssue l) = sumIssueCounts l + ks.length := by
  intro ks
  induction ks with
  | nil => intro l; simp
  | cons k ks ih =>
    intro l
    simp only [List.foldl_cons]
    rw [ih, bumpIssue_sum]
    simp
    omega

lemma foldl_stats_total : ∀ (ms : List ThaiMetadata) (st : EngineStats),
    (ms.foldl update_compliance_statistics st).total_analyzed
      = st.total_analyzed + ms.length := by
  intro ms
  induction ms with
  | nil => intro st; simp
  | cons m ms ih =>
    intro st
    simp only [List.foldl_cons]
    rw [ih]
    simp [update_compliance_statistics]
    omega

lemma foldl_stats_score : ∀ (ms : List ThaiMetadata) (st : EngineStats),
    (ms.foldl update_compliance_statistics st).total_compliance_score
      = st.total_compliance_score + (ms.map (fun m => m.overall_compliance)).sum := by
  intro ms
  induction ms with
  | nil => intro st; simp
  | cons m ms ih =>
    intro st
    simp only [List.foldl_cons]
    rw [ih]
    simp [update_compliance_statistics]
    ring

lemma foldl_stats_freq : ∀ (ms : List ThaiMetadata) (st : EngineStats),
    sumIssueCounts (ms.foldl update_compliance_statistics st).issue_frequency
      = sumIssueCounts st.issue_frequency
        + (ms.map (fun m => (collect_issues m).length)).sum := by
  intro ms
  induction ms with
  | nil => intro st; simp
  | cons m ms ih =>
    intro st
    simp only [List.foldl_cons]
    rw [ih]
    show sumIssueCounts ((collect_issues m).foldl bumpIssue st.issue_frequency) + _ = _
    rw [foldl_bumpIssue_sum]
    simp
    omega

lemma convert_roundtrip_core : ∀ cps : List Nat,
    (∀ c ∈ cps, is_valid_thai_character c = true) →
    (cps.map (fun c => match utf8_to_dab_mapping c with
        | some b => b
        | none => substitutionMarker)).filterMap dab_to_unicode = cps := by
  intro cps
  induction cps with
  | nil => intro _; rfl
  | cons c rest ih =>
    intro h
    have hc := h c (by simp)
    obtain ⟨b, hb⟩ := Option.isSome_iff_exists.mp (mapping_isSome_of_valid hc)
    have hrt := mapping_roundtrip hc
    rw [hb] at hrt
    simp only [Option.some_bind] at hrt
    simp only [List.map_cons, List.filterMap_cons, hb, hrt]
    simp only [List.cons.injEq, true_and]
    exact ih (fun x hx => h x (by simp [hx]))

/-- A trivially compliant character validation, used to build concrete
metadata values. -/
def blankValidation : CharacterValidation :=
  { valid_encoding := true
    dab_profile_compliant := true
    renderable := true
    invalid_chars := 0
    issues := []
    compliance_score := 100 }

/-- A neutral cultural analysis, used to build concrete metadata values. -/
def blankCultural : CulturalAnalysis :=
  { has_buddhist_content := false
    has_royal_content := false
    has_traditional_content := false
    appropriate_language := true
    cultural_category := "general"
    detected_keywords := []
    cultural_compliance := 100 }

/-- A concrete metadata value with the given overall compliance score. -/
def mkMetadata (s : Rat) : ThaiMetadata :=
  { title_thai := []
    title_dab := []
    artist_thai := []
    artist_dab := []
    album_thai := []
    album_dab := []
    genre_thai := []
    station_name_thai := []
    title_validation := blankValidation
    artist_validation := blankValidation
    album_validation := blankValidation
    genre_validation := blankValidation
    cultural_analysis := blankCultural
    has_english_fallback := false
    overall_compliance := s
    timestamp := 0 }

/-- A concrete keyword configuration (the spec treats the keyword sets as
configuration data, so any concrete table instantiates the analyzer). -/
def exampleCulturalAnalyzer : CulturalContentAnalyzer :=
  { buddhist_keywords := [[0x76, 0x65, 0x64]]
    royal_keywords := [[0x72, 0x6F, 0x79]]
    traditional_keywords := [[0x74, 0x72, 0x61]]
    inappropriate_terms := [[0x62, 0x61, 0x64]]
    formal_indicators := [[0x66, 0x6D, 0x6C]] }

/-- The 130-byte ASCII DLS example of the spec: 100 letters, a space at
position 100, then 29 more letters. -/
def dlsExample130 : List Nat :=
  List.replicate 100 0x61 ++ 0x20 :: List.replicate 29 0x62

/-- C1: for every set of label fields, `analyze_fig1_labels` produces a
`ThaiMetadata` whose `overall_compliance` equals the weighted arithmetic mean
of the four embedded per-field compliance scores with weights 0.4 (title),
0.2 (artist), 0.2 (album), 0.2 (genre), multiplied by
`cultural_compliance / 100` of the embedded cultural analysis; it is thus
deterministically derivable from the embedded scores, never set
independently. -/
theorem overall_compliance_weighted_mean (a : CulturalContentAnalyzer) (label : fig1_label) :
    (analyze_fig1_labels a label).overall_compliance =
      (0.4 * (analyze_fig1_labels a label).title_validation.compliance_score
        + 0.2 * (analyze_fig1_labels a label).artist_validation.compliance_score
        + 0.2 * (analyze_fig1_labels a label).album_validation.compliance_score
        + 0.2 * (analyze_fig1_labels a label).genre_validation.compliance_score)
      * ((analyze_fig1_labels a label).cultural_analysis.cultural_compliance / 100) := rfl

/-- C2: `get_overall_compliance_level` returns COMPLIANT iff
`overall_compliance` is at least 95, WARNING iff it lies in [85,95),
NON_COMPLIANT iff it lies in [70,85), CRITICAL iff it is below 70, and the
level is a pure, monotone-decreasing function of `overall_compliance` alone. -/
theorem compliance_level_thresholds (m : ThaiMetadata) :
    (get_overall_compliance_level m = ComplianceLevel.COMPLIANT ↔
        95 ≤ m.overall_compliance)
    ∧ (get_overall_compliance_level m = ComplianceLevel.WARNING ↔
        85 ≤ m.overall_compliance ∧ m.overall_compliance < 95)
    ∧ (get_overall_compliance_level m = ComplianceLevel.NON_COMPLIANT ↔
        70 ≤ m.overall_compliance ∧ m.overall_compliance < 85)
    ∧ (get_overall_compliance_level m = ComplianceLevel.CRITICAL ↔
        m.overall_compliance < 70)
    ∧ (∀ m2 : ThaiMetadata, m.overall_compliance = m2.overall_compliance →
        get_overall_compliance_level m = get_overall_compliance_level m2)
    ∧ (∀ m2 : ThaiMetadata, m.overall_compliance ≤ m2.overall_compliance →
        levelRank (get_overall_compliance_level m2)
          ≤ levelRank (get_overall_compliance_level m)) := by
  refine ⟨score_to_level_compliant _, score_to_level_warning _,
    score_to_level_noncompliant _, score_to_level_critical _, ?_, ?_⟩
  · intro m2 h
    unfold get_overall_compliance_level
    rw [h]
  · intro m2 h
    exact score_to_level_antitone h

/-- Witness for C2 at concrete metadata values with scores 96 and 80. -/
theorem compliance_level_thresholds_witness :
    ((mkMetadata 80).overall_compliance ≤ (mkMetadata 96).overall_compliance)
    ∧ (95 ≤ (mkMetadata 96).overall_compliance)
    ∧ (get_overall_compliance_level (mkMetadata 96) = ComplianceLevel.COMPLIANT)
    ∧ (levelRank (get_overall_compliance_level (mkMetadata 96))
        ≤ levelRank (get_overall_compliance_level (mkMetadata 80))) :=
  ⟨by decide, by decide,
   (compliance_level_thresholds (mkMetadata 96)).1.mpr (by decide),
   (compliance_level_thresholds (mkMetadata 80)).2.2.2.2.2 (mkMetadata 96) (by decide)⟩

/-- C7: the severity of a compliance result is derived from its score by the
fixed ladder INFO for score at least 90, WARNING on [70,90), ERROR on [40,70),
CRITICAL below 40, independently of the structural pass/fail boolean. -/
theorem severity_ladder (score : Rat) :
    ((get_severity_for_score score = ViolationSeverity.INFO) ↔ 90 ≤ score)
    ∧ ((get_severity_for_score score = ViolationSeverity.WARNING) ↔
        70 ≤ score ∧ score < 90)
    ∧ ((get_severity_for_score score = ViolationSeverity.ERROR) ↔
        40 ≤ score ∧ score < 70)
    ∧ ((get_severity_for_score score = ViolationSeverity.CRITICAL) ↔ score < 40)
    ∧ (∀ (std : ETSIStandard) (name details : String) (p1 p2 : Bool),
        (create_result std name p1 score details).severity
          = (create_result std name p2 score details).severity) := by
  refine ⟨?_, ?_, ?_, ?_, fun _ _ _ _ _ => rfl⟩ <;>
    (unfold get_severity_for_score
     split_ifs with h1 h2 h3 <;> simp_all <;> intros <;> linarith)

/-- C8: the cultural category of `analyze_cultural_content` follows the fixed
precedence royal over Buddhist over traditional over general, except that
whenever any inappropriate term was detected the category is flagged and
`appropriate_language` is false, regardless of what other keyword sets
matched. -/
theorem cultural_category_precedence (a : CulturalContentAnalyzer) (text : List Nat) :
    ((analyze_cultural_content a text).cultural_category =
      (if (analyze_cultural_content a text).appropriate_language then
        (if (analyze_cultural_content a text).has_royal_content then "royal"
         else if (analyze_cultural_content a text).has_buddhist_content then "buddhist"
         else if (analyze_cultural_content a text).has_traditional_content then "traditional"
         else "general")
       else "flagged"))
    ∧ ((analyze_cultural_content a text).appropriate_language
        = (detect_inappropriate_content a text).isEmpty) :=
  ⟨rfl, rfl⟩

/-- C10: validating a string twice through the state-passing call form of
`validate_thai_text` yields equal results and leaves the analyzer state (the
construction-fixed tables) unchanged: the result is a deterministic function
of the string alone. -/
theorem validate_thai_text_deterministic (a : ThaiCharacterAnalyzer) (text : List Nat) :
    ((validate_thai_text_call a text).2 = a)
    ∧ ((validate_thai_text_call ((validate_thai_text_call a text).2) text).1
        = (validate_thai_text_call a text).1)
    ∧ ((validate_thai_text_call a text).1 = validate_thai_text text) :=
  ⟨rfl, rfl, rfl⟩

lemma ascii_is_valid {b : Nat} (h : b < 0x80) :
    is_valid_thai_character b = true := by
  simp [is_valid_thai_character]
  omega

lemma ascii_filter_unmapped_nil (text : List Nat)
    (hascii : ∀ b ∈ text, b < 0x80) :
    (utf8Decode text).filter (fun it => (it.bind utf8_to_dab_mapping).isNone) = [] := by
  have hdec : utf8Decode text = text.map some := utf8Decode_ascii text hascii
  rw [hdec]
  apply List.filter_eq_nil_iff.mpr
  intro it hit
  obtain ⟨b, hb, hbit⟩ := List.mem_map.mp hit
  subst hbit
  have hv := ascii_is_valid (hascii b hb)
  obtain ⟨x, hx⟩ := Option.isSome_iff_exists.mp (mapping_isSome_of_valid hv)
  simp [hx]

lemma ascii_mappedCount (text : List Nat)
    (hascii : ∀ b ∈ text, b < 0x80) :
    mappedCount text = (utf8Decode text).length := by
  unfold mappedCount
  congr 1
  apply List.filter_eq_self.mpr
  intro it hit
  have hdec : utf8Decode text = text.map some := utf8Decode_ascii text hascii
  rw [hdec] at hit
  obtain ⟨b, hb, hbit⟩ := List.mem_map.mp hit
  subst hbit
  have hv := ascii_is_valid (hascii b hb)
  simpa using mapping_isSome_of_valid hv

/-- C3: `validate_thai_text` scores 100 times the number of codepoints mapped
into the DAB profile over the total decoded codepoint count (malformed
sequences count as decoded items that fail), and an empty or fully-ASCII
string (every byte below 0x80) is compliant with score exactly 100, with no
division-by-zero failure on empty input. -/
theorem validate_score_formula (text : List Nat) :
    ((validate_thai_text text).compliance_score =
      (if (utf8Decode text).length = 0 then (100 : Rat)
       else 100 * (mappedCount text : Rat) / ((utf8Decode text).length : Rat)))
    ∧ (text = [] →
        (validate_thai_text text).compliance_score = 100
        ∧ (validate_thai_text text).dab_profile_compliant = true)
    ∧ ((∀ b ∈ text, b < 0x80) →
        (validate_thai_text text).compliance_score = 100
        ∧ (validate_thai_text text).dab_profile_compliant = true) := by
  refine ⟨rfl, ?_, ?_⟩
  · intro h
    subst h
    exact ⟨rfl, rfl⟩
  · intro hascii
    have hfil := ascii_filter_unmapped_nil text hascii
    have hcount := ascii_mappedCount text hascii
    constructor
    · show calculate_compliance_score text = 100
      unfold calculate_compliance_score
      split_ifs with h0
      · rfl
      · rw [hcount]
        have hne : (((utf8Decode text).length : Nat) : Rat) ≠ 0 := by
          exact_mod_cast h0
        field_simp
    · show decide ((((utf8Decode text).filter
          (fun it => (it.bind utf8_to_dab_mapping).isNone)).length) = 0) = true
      rw [hfil]
      decide

/-- Witness for C3 at the empty string and at a concrete fully-ASCII string
that includes a control byte (a line feed). -/
theorem validate_score_formula_witness :
    ((validate_thai_text []).compliance_score = 100)
    ∧ ((validate_thai_text [0x0A, 0x48, 0x69]).compliance_score = 100
        ∧ (validate_thai_text [0x0A, 0x48, 0x69]).dab_profile_compliant = true) :=
  ⟨((validate_score_formula []).2.1 rfl).1,
   (validate_score_formula [0x0A, 0x48, 0x69]).2.2 (by decide)⟩

lemma issue_length_core : ∀ l : List (Option Nat),
    (l.filterMap (fun it => match it.bind utf8_to_dab_mapping with
        | some _ => none
        | none => some "Lossy conversion: codepoint outside DAB profile 0x0E")).length
      = (l.filter (fun it => (it.bind utf8_to_dab_mapping).isNone)).length := by
  intro l
  induction l with
  | nil => rfl
  | cons it rest ih =>
    cases hm : it.bind utf8_to_dab_mapping <;>
      simp [List.filterMap_cons, List.filter_cons, hm, ih]

lemma issues_nil_core : ∀ cps : List Nat,
    (∀ c ∈ cps, is_valid_thai_character c = true) →
    ((cps.map some).filterMap (fun it => match it.bind utf8_to_dab_mapping with
        | some _ => none
        | none => some "Lossy conversion: codepoint outside DAB profile 0x0E")) = [] := by
  intro cps
  induction cps with
  | nil => intro _; rfl
  | cons c rest ih =>
    intro h
    have hc := h c (by simp)
    obtain ⟨b, hb⟩ := Option.isSome_iff_exists.mp (mapping_isSome_of_valid hc)
    simp only [List.map_cons, List.filterMap_cons, Option.some_bind, hb]
    exact ih (fun x hx => h x (by simp [hx]))

/-- C4: converting a text whose codepoints all lie in the
valid-Thai-codepoint set to the DAB profile and mapping the profile bytes
back through the inverse mapping reproduces the original codepoint sequence
exactly, with no lossy-conversion issue recorded; in general the output
length tracks the decoded input length and exactly one lossy-conversion
issue is recorded per codepoint outside the profile mapping (substitutions
are never silently dropped). -/
theorem dab_profile_roundtrip :
    (∀ cps : List Nat, (∀ c ∈ cps, is_valid_thai_character c = true) →
      ((convert_to_dab_profile (utf8Encode cps)).1.filterMap dab_to_unicode = cps
        ∧ (convert_to_dab_profile (utf8Encode cps)).2 = []))
    ∧ (∀ text : List Nat,
        (convert_to_dab_profile text).1.length = (utf8Decode text).length
        ∧ (convert_to_dab_profile text).2.length =
            ((utf8Decode text).filter
              (fun it => (it.bind utf8_to_dab_mapping).isNone)).length) := by
  constructor
  · intro cps h
    have hdec := utf8Decode_encode cps h
    constructor
    · show ((utf8Decode (utf8Encode cps)).map _).filterMap dab_to_unicode = cps
      rw [hdec, List.map_map]
      exact convert_roundtrip_core cps h
    · show (utf8Decode (utf8Encode cps)).filterMap _ = []
      rw [hdec]
      exact issues_nil_core cps h
  · intro text
    constructor
    · simp [convert_to_dab_profile]
    · exact issue_length_core (utf8Decode text)

/-- Witness for C4 at a concrete Thai-plus-ASCII codepoint sequence. -/
theorem dab_profile_roundtrip_witness :
    ((convert_to_dab_profile (utf8Encode [0x0E01, 0x20, 0x0E5B])).1.filterMap dab_to_unicode
      = [0x0E01, 0x20, 0x0E5B])
    ∧ ((convert_to_dab_profile (utf8Encode [0x0E01, 0x20, 0x0E5B])).2 = []) :=
  dab_profile_roundtrip.1 [0x0E01, 0x20, 0x0E5B] (by decide)

/-- C5: for a buffer whose FIG area is malformed (declared FIG length exceeds
the buffer bounds), `analyze_complete_eti` reports that section as a failed
`ComplianceResult` with CRITICAL severity and a descriptive detail that also
appears in `critical_issues` (the function is total, so no fault is raised),
and it still evaluates and returns the results of the remaining independent
checks from their own validators. -/
theorem malformed_fig_reported (filename : String) (data : List Nat)
    (h : validate_fig_structure (data.drop 8) = false) :
    (∃ r ∈ (analyze_complete_eti filename data).standard_results,
        r.check_name = "FIG Structure" ∧ r.passed = false
        ∧ r.severity = ViolationSeverity.CRITICAL
        ∧ r.details = "FIG declared length exceeds buffer bounds")
    ∧ (∃ r ∈ (analyze_complete_eti filename data).standard_results,
        r.check_name = "ETI Frame Structure" ∧ r.passed = validate_frame_structure data)
    ∧ (∃ r ∈ (analyze_complete_eti filename data).standard_results,
        r.check_name = "Service Organization"
        ∧ r.passed = validate_service_organization data)
    ∧ "FIG declared length exceeds buffer bounds"
        ∈ (analyze_complete_eti filename data).critical_issues := by
  have h0 : get_severity_for_score 0 = ViolationSeverity.CRITICAL := by
    norm_num [get_severity_for_score]
  have h100 : get_severity_for_score 100 = ViolationSeverity.INFO := by
    norm_num [get_severity_for_score]
  cases hf : validate_frame_structure data <;>
    cases ho : validate_service_organization data <;>
      simp [analyze_complete_eti, h, hf, ho, create_result, h0, h100]

/-- Witness for C5 at a concrete 9-byte buffer whose single FIG declares a
5-byte body with no bytes following. -/
theorem malformed_fig_reported_witness :
    (validate_fig_structure (([0xFF, 0, 0, 0, 0, 0, 0, 0, 0x05] : List Nat).drop 8) = false)
    ∧ "FIG declared length exceeds buffer bounds"
        ∈ (analyze_complete_eti "test.eti" [0xFF, 0, 0, 0, 0, 0, 0, 0, 0x05]).critical_issues :=
  ⟨by decide,
   (malformed_fig_reported "test.eti" [0xFF, 0, 0, 0, 0, 0, 0, 0, 0x05] (by decide)).2.2.2⟩

set_option maxRecDepth 40000 in
/-- C6: `analyze_dls_content` sets `exceeds_limit` iff the segment length
exceeds 128 characters, every produced segment of the greedy split is at most
128 characters long, and the concrete 130-character ASCII string with a space
at position 100 yields exactly two segments with the first at most 128
characters. -/
theorem dls_split_limits (a : CulturalContentAnalyzer) (dls_text : List Nat) :
    ((analyze_dls_content a dls_text).exceeds_limit = decide (128 < dls_text.length))
    ∧ ((analyze_dls_content a dls_text).segment_length = dls_text.length)
    ∧ (∀ s ∈ (analyze_dls_content a dls_text).segments, s.length ≤ 128)
    ∧ ((analyze_dls_content exampleCulturalAnalyzer dlsExample130).exceeds_limit = true
        ∧ (analyze_dls_content exampleCulturalAnalyzer dlsExample130).segments.length = 2
        ∧ ((analyze_dls_content exampleCulturalAnalyzer dlsExample130).segments.headD []).length
            ≤ 128) := by
  refine ⟨rfl, rfl, ?_, by decide, by decide, by decide⟩
  intro s hs
  by_cases hlen : 128 < dls_text.length
  · have hseg : (analyze_dls_content a dls_text).segments = split_dls_segments dls_text := by
      simp [analyze_dls_content, hlen]
    rw [hseg] at hs
    exact splitDlsAux_le dls_text.length dls_text (le_refl _) s hs
  · have hseg : (analyze_dls_content a dls_text).segments = [dls_text] := by
      simp [analyze_dls_content, hlen]
    rw [hseg] at hs
    simp at hs
    subst hs
    omega

set_option maxRecDepth 40000 in
/-- Witness for C6: the first segment of the concrete split is a member of the
segment list and the general bound applies to it. -/
theorem dls_split_limits_witness :
    (((analyze_dls_content exampleCulturalAnalyzer dlsExample130).segments.headD [])
        ∈ (analyze_dls_content exampleCulturalAnalyzer dlsExample130).segments)
    ∧ (((analyze_dls_content exampleCulturalAnalyzer dlsExample130).segments.headD []).length
        ≤ 128) :=
  ⟨by decide,
   (dls_split_limits exampleCulturalAnalyzer dlsExample130).2.2.1
     ((analyze_dls_content exampleCulturalAnalyzer dlsExample130).segments.headD [])
     (by decide)⟩

/-- C9: after folding `update_compliance_statistics` over N metadata objects
starting from the initial statistics, the total-analyzed count is N, the
running compliance average is the arithmetic mean of the N overall scores
(exactly, in rational arithmetic), and the histogram counts sum to the total
number of issue occurrences across all analyzed inputs. -/
theorem running_statistics (ms : List ThaiMetadata) :
    (get_total_analyzed_count (ms.foldl update_compliance_statistics initialEngineStats)
        = ms.length)
    ∧ (ms ≠ [] →
        get_running_compliance_average
            (ms.foldl update_compliance_statistics initialEngineStats)
          = (ms.map (fun m => m.overall_compliance)).sum / (ms.length : Rat))
    ∧ (sumIssueCounts (get_issue_frequency
          (ms.foldl update_compliance_statistics initialEngineStats))
        = (ms.map (fun m => (collect_issues m).length)).sum) := by
  have htot := foldl_stats_total ms initialEngineStats
  have hscore := foldl_stats_score ms initialEngineStats
  have hfreq := foldl_stats_freq ms initialEngineStats
  refine ⟨?_, ?_, ?_⟩
  · show (ms.foldl update_compliance_statistics initialEngineStats).total_analyzed = ms.length
    rw [htot]
    simp [initialEngineStats]
  · intro hne
    have hlen : ms.length ≠ 0 := fun hz => hne (List.length_eq_zero.mp hz)
    unfold get_running_compliance_average
    rw [htot, hscore]
    simp only [initialEngineStats, zero_add]
    rw [if_neg hlen]
  · show sumIssueCounts
        (ms.foldl update_compliance_statistics initialEngineStats).issue_frequency = _
    rw [hfreq]
    simp [initialEngineStats, sumIssueCounts]

/-- Witness for C9 at two concrete metadata objects with scores 90 and 70. -/
theorem running_statistics_witness :
    (([mkMetadata 90, mkMetadata 70] : List ThaiMetadata) ≠ [])
    ∧ (get_running_compliance_average
        ([mkMetadata 90, mkMetadata 70].foldl update_compliance_statistics initialEngineStats)
      = ([mkMetadata 90, mkMetadata 70].map (fun m => m.overall_compliance)).sum
          / (([mkMetadata 90, mkMetadata 70].length : Rat))) :=
  ⟨by decide, (running_statistics [mkMetadata 90, mkMetadata 70]).2.1 (by decide)⟩
